import Mathlib

/-!
Formal model of the genotype-interpretation core of the genetics/diet app
(`src/lib/interpret.ts`, `src/lib/phenotypes.ts`, `src/lib/diet.ts`, with the
variant registry data as given in the single-file prototype of the repository).

JavaScript numbers are modelled as exact rationals (ℚ); all arithmetic in the
source is addition/subtraction of short decimal literals and products of small
integers, far from any rounding boundary. A genotype map
(`Record<string, string>`) is modelled as `String → Option String`
(`none` = key absent / `undefined`). JS `String.prototype.includes` is the
substring test `jsIncludes`. The JS falsiness guard `!genotype` is true for
both `undefined` and the empty string.
-/

/-- JS `s.includes(sub)`: `sub` occurs as a contiguous substring of `s`. -/
def jsIncludes (s sub : String) : Bool :=
  decide (List.IsInfix sub.toList s.toList)

/-- A genotype map: variant id → observed allele string (none = no call). -/
abbrev Genotypes := String → Option String

/-- `SNPInfo` from `types.ts`: optional risk / protective allele lists and the
two 1–5 integer weights (kept as ℚ, the JS number type). -/
structure SNPInfo where
  risk : Option (List String) := none
  protective : Option (List String) := none
  evidence : ℚ
  effect : ℚ
  deriving DecidableEq, Repr

/-- The variant registry `SNP_INFO` of `data/snpInfo.ts`, as listed in the
repository prototype file (risk/protective alleles and weights per rsID). -/
def SNP_INFO_LIST : List (String × SNPInfo) := [
  -- LDL receptor function / cholesterol clearance
  ("rs429358",   { risk := some ["C"], protective := some ["T"], evidence := 5, effect := 5 }),
  ("rs7412",     { risk := some ["C"], protective := some ["T"], evidence := 5, effect := 5 }),
  ("rs688",      { risk := some ["G"], protective := some ["A"], evidence := 4, effect := 4 }),
  ("rs6511720",  { protective := some ["T"], evidence := 5, effect := 4 }),
  ("rs3846662",  { risk := some ["G"], protective := some ["A"], evidence := 3, effect := 3 }),
  ("rs11591147", { protective := some ["T"], evidence := 5, effect := 5 }),
  ("rs1042031",  { protective := some ["A"], evidence := 3, effect := 3 }),
  ("rs693",      { risk := some ["C"], protective := some ["T"], evidence := 3, effect := 3 }),
  ("rs6259",     { protective := some ["A"], evidence := 2, effect := 2 }),
  -- Triglyceride metabolism & VLDL secretion
  ("rs662799",   { risk := some ["G"], protective := some ["A"], evidence := 5, effect := 5 }),
  ("rs3135506",  { risk := some ["C"], protective := some ["G"], evidence := 4, effect := 4 }),
  ("rs1260326",  { risk := some ["T"], protective := some ["C"], evidence := 5, effect := 5 }),
  ("rs780094",   { risk := some ["T"], protective := some ["C"], evidence := 4, effect := 4 }),
  ("rs328",      { risk := some ["C"], protective := some ["G"], evidence := 5, effect := 5 }),
  ("rs13702",    { risk := some ["T"], protective := some ["A"], evidence := 5, effect := 4 }),
  ("rs12678919", { risk := some ["A"], protective := some ["G"], evidence := 4, effect := 4 }),
  ("rs10503669", { protective := some ["A"], evidence := 3, effect := 3 }),
  ("rs1748195",  { protective := some ["G"], evidence := 3, effect := 3 }),
  ("rs10889353", { protective := some ["C"], evidence := 2, effect := 2 }),
  ("rs1044250",  { protective := some ["C"], evidence := 3, effect := 3 }),
  ("rs11672433", { protective := some ["A"], evidence := 3, effect := 3 }),
  ("rs7255436",  { protective := some ["G"], evidence := 3, effect := 3 }),
  ("rs4846914",  { risk := some ["G"], protective := some ["A"], evidence := 3, effect := 3 }),
  ("rs5128",     { risk := some ["G"], protective := some ["C"], evidence := 3, effect := 3 }),
  ("rs708272",   { risk := some ["G"], protective := some ["A"], evidence := 3, effect := 3 }),
  ("rs5882",     { risk := some ["G"], protective := some ["A"], evidence := 3, effect := 3 }),
  -- Insulin sensitivity / fat oxidation / carbohydrate tolerance
  ("rs1801282",  { risk := some ["C"], protective := some ["G"], evidence := 3, effect := 3 }),
  ("rs7903146",  { risk := some ["T"], protective := some ["C"], evidence := 5, effect := 5 }),
  ("rs2943641",  { risk := some ["C"], protective := some ["T"], evidence := 4, effect := 4 }),
  ("rs9939609",  { risk := some ["A"], protective := some ["T"], evidence := 5, effect := 5 }),
  ("rs5400",     { risk := some ["T"], protective := some ["C"], evidence := 2, effect := 2 }),
  -- De novo lipogenesis & hepatic signalling
  ("rs738409",   { risk := some ["G"], protective := some ["C"], evidence := 5, effect := 5 }),
  ("rs58542926", { risk := some ["T"], protective := some ["C"], evidence := 5, effect := 5 }),
  ("rs2306986",  { protective := some ["C"], evidence := 3, effect := 3 }),
  ("rs641738",   { risk := some ["T"], protective := some ["C"], evidence := 3, effect := 3 })]

/-- `SNP_INFO[snp]` — registry lookup (undefined for unknown ids). -/
def SNP_INFO (snp : String) : Option SNPInfo :=
  SNP_INFO_LIST.lookup snp

/-- `SNP_CATEGORIES["LDL receptor function / cholesterol clearance"]`. -/
def LDL_SNPS : List String :=
  ["rs429358", "rs7412", "rs688", "rs6511720", "rs3846662", "rs11591147",
   "rs1042031", "rs693", "rs6259"]

/-- `SNP_CATEGORIES["Triglyceride metabolism & VLDL secretion"]`. -/
def TG_SNPS : List String :=
  ["rs662799", "rs3135506", "rs1260326", "rs780094", "rs328", "rs13702",
   "rs12678919", "rs10503669", "rs1748195", "rs10889353", "rs1044250",
   "rs11672433", "rs7255436", "rs4846914", "rs5128", "rs708272", "rs5882"]

/-- `SNP_CATEGORIES["Insulin sensitivity / fat oxidation / carbohydrate tolerance"]`. -/
def INSULIN_SNPS : List String :=
  ["rs1801282", "rs7903146", "rs2943641", "rs9939609", "rs5400"]

/-- `SNP_CATEGORIES["De novo lipogenesis & hepatic signalling"]`. -/
def LIVER_SNPS : List String :=
  ["rs738409", "rs58542926", "rs2306986", "rs641738"]

/-- Result record of `interpretSnp` (status/color/tooltip kept as the literal
strings of the source). -/
structure InterpretedVariant where
  status : String
  weight : ℚ
  color : String
  tooltip : String
  deriving DecidableEq, Repr

/-- The Neutral result returned when the variant is unknown or there is no
call (`!info || !genotype`; JS falsiness makes the empty string a no-call). -/
def noCallResult : InterpretedVariant :=
  { status := "Neutral", weight := 0, color := "gray",
    tooltip := "No call / no known effect." }

/-- `interpretSnp` from `src/lib/interpret.ts`: risk alleles are checked
before protective alleles; weight = evidence × effect. -/
def interpretSnp (snp : String) (genotype : Option String) : InterpretedVariant :=
  match SNP_INFO snp, genotype with
  | none, _ => noCallResult
  | _, none => noCallResult
  | some info, some geno =>
    if geno = "" then noCallResult
    else if (info.risk.getD []).any (fun a => jsIncludes geno a) then
      { status := "Risk", weight := info.evidence * info.effect, color := "red",
        tooltip := "Risk-associated allele present." }
    else if (info.protective.getD []).any (fun a => jsIncludes geno a) then
      { status := "Protective", weight := info.evidence * info.effect, color := "green",
        tooltip := "Protective allele present." }
    else
      { status := "Neutral", weight := 0, color := "gray",
        tooltip := "No strong effect known." }

/-- `CategoryScore` from `types.ts`. -/
structure CategoryScore where
  label : String
  color : String
  riskScore : ℚ
  protectiveScore : ℚ
  hits : List String
  deriving DecidableEq, Repr

/-- JS template interpolation of a possibly-undefined genotype value. -/
def jsShow (g : Option String) : String :=
  match g with
  | none => "undefined"
  | some s => s

/-- One iteration of the `for (const snp of snps)` loop body of
`categoryScores`: accumulates (riskScore, protectiveScore, hits). -/
def scoreStep (genotypes : Genotypes) (acc : ℚ × ℚ × List String) (snp : String) :
    ℚ × ℚ × List String :=
  let geno := genotypes snp
  let r := interpretSnp snp geno
  if r.status = "Risk" then
    (acc.1 + r.weight, acc.2.1, acc.2.2 ++ [snp ++ " (" ++ jsShow geno ++ ") → Risk"])
  else if r.status = "Protective" then
    (acc.1, acc.2.1 + r.weight, acc.2.2 ++ [snp ++ " (" ++ jsShow geno ++ ") → Protective"])
  else acc

/-- The three-way label comparison of `categoryScores` (lines 24–27 of
`interpret.ts`), factored out over the two sums. -/
def labelOf (riskScore protectiveScore : ℚ) : String :=
  if riskScore > protectiveScore then "Overall Risk"
  else if protectiveScore > riskScore then "Overall Protective"
  else "Overall Neutral"

/-- `categoryScores` from `src/lib/interpret.ts`. -/
def categoryScores (snps : List String) (genotypes : Genotypes) : CategoryScore :=
  let acc := snps.foldl (scoreStep genotypes) (0, 0, [])
  let label := labelOf acc.1 acc.2.1
  let color : String :=
    if label = "Overall Risk" then "red"
    else if label = "Overall Protective" then "green" else "gray"
  { label := label, color := color, riskScore := acc.1,
    protectiveScore := acc.2.1, hits := acc.2.2 }

lemma categoryScores_label (snps : List String) (g : Genotypes) :
    (categoryScores snps g).label =
      labelOf (snps.foldl (scoreStep g) (0, 0, [])).1
        (snps.foldl (scoreStep g) (0, 0, [])).2.1 := rfl

lemma categoryScores_riskScore (snps : List String) (g : Genotypes) :
    (categoryScores snps g).riskScore =
      (snps.foldl (scoreStep g) (0, 0, [])).1 := rfl

lemma categoryScores_protectiveScore (snps : List String) (g : Genotypes) :
    (categoryScores snps g).protectiveScore =
      (snps.foldl (scoreStep g) (0, 0, [])).2.1 := rfl

lemma categoryScores_hits (snps : List String) (g : Genotypes) :
    (categoryScores snps g).hits =
      (snps.foldl (scoreStep g) (0, 0, [])).2.2 := rfl

lemma labelOf_iff (r p : ℚ) :
    (labelOf r p = "Overall Risk" ↔ r > p) ∧
    (labelOf r p = "Overall Protective" ↔ p > r) ∧
    (labelOf r p = "Overall Neutral" ↔ r = p) := by
  rcases lt_trichotomy r p with h | h | h
  · have hlab : labelOf r p = "Overall Protective" := by
      unfold labelOf; rw [if_neg (lt_asymm h), if_pos h]
    rw [hlab]
    exact ⟨⟨fun hc => absurd hc (by decide), fun hc => absurd hc (lt_asymm h)⟩,
      ⟨fun _ => h, fun _ => rfl⟩,
      ⟨fun hc => absurd hc (by decide), fun hc => absurd hc (ne_of_lt h)⟩⟩
  · subst h
    have hlab : labelOf r r = "Overall Neutral" := by
      unfold labelOf; rw [if_neg (lt_irrefl r), if_neg (lt_irrefl r)]
    rw [hlab]
    exact ⟨⟨fun hc => absurd hc (by decide), fun hc => absurd hc (lt_irrefl r)⟩,
      ⟨fun hc => absurd hc (by decide), fun hc => absurd hc (lt_irrefl r)⟩,
      ⟨fun _ => rfl, fun _ => rfl⟩⟩
  · have hlab : labelOf r p = "Overall Risk" := if_pos h
    rw [hlab]
    exact ⟨⟨fun _ => h, fun _ => rfl⟩,
      ⟨fun hc => absurd hc (by decide), fun hc => absurd hc (lt_asymm h)⟩,
      ⟨fun hc => absurd hc (by decide), fun hc => absurd hc (ne_of_gt h)⟩⟩

/-- C1: For every sequence of variant identifiers and every genotype map, the
CategoryScore returned by categoryScores has label "Overall Risk" iff
riskScore > protectiveScore, "Overall Protective" iff
protectiveScore > riskScore, and "Overall Neutral" otherwise (equivalently,
iff the two sums are equal) — in particular a tie always yields Neutral. -/
theorem categoryScores_label_iff (snps : List String) (genotypes : Genotypes) :
    ((categoryScores snps genotypes).label = "Overall Risk" ↔
      (categoryScores snps genotypes).riskScore >
        (categoryScores snps genotypes).protectiveScore) ∧
    ((categoryScores snps genotypes).label = "Overall Protective" ↔
      (categoryScores snps genotypes).protectiveScore >
        (categoryScores snps genotypes).riskScore) ∧
    ((categoryScores snps genotypes).label = "Overall Neutral" ↔
      (categoryScores snps genotypes).riskScore =
        (categoryScores snps genotypes).protectiveScore) := by
  rw [categoryScores_label, categoryScores_riskScore, categoryScores_protectiveScore]
  exact labelOf_iff _ _

/-- Risk contribution of one variant to a category sum. -/
def riskWeight (g : Genotypes) (snp : String) : ℚ :=
  let r := interpretSnp snp (g snp)
  if r.status = "Risk" then r.weight else 0

/-- Protective contribution of one variant to a category sum. -/
def protectiveWeight (g : Genotypes) (snp : String) : ℚ :=
  let r := interpretSnp snp (g snp)
  if r.status = "Protective" then r.weight else 0

/-- The hit-description entry a variant contributes to `hits` (if any). -/
def hitEntry (g : Genotypes) (snp : String) : Option String :=
  let geno := g snp
  let r := interpretSnp snp geno
  if r.status = "Risk" then some (snp ++ " (" ++ jsShow geno ++ ") → Risk")
  else if r.status = "Protective" then
    some (snp ++ " (" ++ jsShow geno ++ ") → Protective")
  else none

lemma scoreStep_eq (g : Genotypes) (acc : ℚ × ℚ × List String) (snp : String) :
    scoreStep g acc snp =
      (acc.1 + riskWeight g snp, acc.2.1 + protectiveWeight g snp,
        acc.2.2 ++ (hitEntry g snp).toList) := by
  unfold scoreStep riskWeight protectiveWeight hitEntry
  by_cases h1 : (interpretSnp snp (g snp)).status = "Risk"
  · have h2 : ¬ (interpretSnp snp (g snp)).status = "Protective" := by
      rw [h1]; decide
    simp [h1, h2]
  · by_cases h2 : (interpretSnp snp (g snp)).status = "Protective"
    · simp [h1, h2]
    · simp [h1, h2]

lemma foldl_scoreStep (g : Genotypes) :
    ∀ (snps : List String) (r p : ℚ) (hs : List String),
      snps.foldl (scoreStep g) (r, p, hs) =
        (r + (snps.map (riskWeight g)).sum,
          p + (snps.map (protectiveWeight g)).sum,
          hs ++ snps.filterMap (hitEntry g)) := by
  intro snps
  induction snps with
  | nil => intro r p hs; simp
  | cons s t ih =>
    intro r p hs
    rw [List.foldl_cons, scoreStep_eq, ih]
    cases h : hitEntry g s <;>
      simp [h, List.filterMap_cons, add_assoc]

lemma categoryScores_riskScore_sum (snps : List String) (g : Genotypes) :
    (categoryScores snps g).riskScore = (snps.map (riskWeight g)).sum := by
  rw [categoryScores_riskScore, foldl_scoreStep]; simp

lemma categoryScores_protectiveScore_sum (snps : List String) (g : Genotypes) :
    (categoryScores snps g).protectiveScore =
      (snps.map (protectiveWeight g)).sum := by
  rw [categoryScores_protectiveScore, foldl_scoreStep]; simp

lemma categoryScores_hits_filterMap (snps : List String) (g : Genotypes) :
    (categoryScores snps g).hits = snps.filterMap (hitEntry g) := by
  rw [categoryScores_hits, foldl_scoreStep]; simp

/-- C9: For every genotype map and every permutation of the input sequence of
variant identifiers, categoryScores returns the same riskScore and the same
protectiveScore (the accumulated sums are order-independent), while the hits
list follows the input iteration order (it is the in-order list of
contributing-variant descriptions of its own input sequence). -/
theorem categoryScores_perm_invariant (g : Genotypes) (snps1 snps2 : List String)
    (hperm : snps1.Perm snps2) :
    (categoryScores snps1 g).riskScore = (categoryScores snps2 g).riskScore ∧
    (categoryScores snps1 g).protectiveScore =
      (categoryScores snps2 g).protectiveScore ∧
    (categoryScores snps1 g).hits = snps1.filterMap (hitEntry g) ∧
    (categoryScores snps2 g).hits = snps2.filterMap (hitEntry g) := by
  refine ⟨?_, ?_, categoryScores_hits_filterMap _ _, categoryScores_hits_filterMap _ _⟩
  · rw [categoryScores_riskScore_sum, categoryScores_riskScore_sum]
    exact (hperm.map (riskWeight g)).sum_eq
  · rw [categoryScores_protectiveScore_sum, categoryScores_protectiveScore_sum]
    exact (hperm.map (protectiveWeight g)).sum_eq

/-- Witness for C9 at a concrete permuted pair of id lists and a concrete
genotype map. -/
theorem categoryScores_perm_invariant_witness :
    List.Perm ["rs429358", "rs7412"] ["rs7412", "rs429358"] ∧
    ((categoryScores ["rs429358", "rs7412"]
        (fun s => if s = "rs429358" then some "CT" else none)).riskScore =
      (categoryScores ["rs7412", "rs429358"]
        (fun s => if s = "rs429358" then some "CT" else none)).riskScore ∧
    (categoryScores ["rs429358", "rs7412"]
        (fun s => if s = "rs429358" then some "CT" else none)).protectiveScore =
      (categoryScores ["rs7412", "rs429358"]
        (fun s => if s = "rs429358" then some "CT" else none)).protectiveScore ∧
    (categoryScores ["rs429358", "rs7412"]
        (fun s => if s = "rs429358" then some "CT" else none)).hits =
      List.filterMap
        (hitEntry (fun s => if s = "rs429358" then some "CT" else none))
        ["rs429358", "rs7412"] ∧
    (categoryScores ["rs7412", "rs429358"]
        (fun s => if s = "rs429358" then some "CT" else none)).hits =
      List.filterMap
        (hitEntry (fun s => if s = "rs429358" then some "CT" else none))
        ["rs7412", "rs429358"]) :=
  ⟨by decide,
    categoryScores_perm_invariant
      (fun s => if s = "rs429358" then some "CT" else none)
      ["rs429358", "rs7412"] ["rs7412", "rs429358"] (by decide)⟩

lemma lookup_mem :
    ∀ {l : List (String × SNPInfo)} {k : String} {v : SNPInfo},
      l.lookup k = some v → (k, v) ∈ l := by
  intro l
  induction l with
  | nil => intro k v h; simp [List.lookup] at h
  | cons p t ih =>
    intro k v h
    obtain ⟨a, b⟩ := p
    rw [List.lookup_cons] at h
    by_cases hk : (k == a) = true
    · rw [hk] at h
      simp only [] at h
      have hv : b = v := Option.some.inj h
      have hka : k = a := eq_of_beq hk
      subst hv; subst hka
      exact List.mem_cons_self _ _
    · have hk2 : (k == a) = false := by simpa using hk
      rw [hk2] at h
      simp only [] at h
      exact List.mem_cons_of_mem _ (ih h)

/-- Every risk allele listed in the registry is a nonempty string. -/
lemma registry_risk_alleles_nonempty :
    SNP_INFO_LIST.all
      (fun q => (q.2.risk.getD []).all (fun a => !(a.toList == []))) = true := by
  decide

/-- C2: For every variant in the registry that has both risk and protective
alleles defined, and every genotype string containing at least one of its risk
alleles as a substring, interpretSnp classifies the call as Risk with
weight = evidence × effect — the risk check runs before the protective check,
so this holds even when the string also contains a protective allele. -/
theorem interpretSnp_risk_precedence (snp : String) (info : SNPInfo)
    (geno : String) (rs : List String)
    (hinfo : SNP_INFO snp = some info)
    (hr : info.risk = some rs)
    (_hp : info.protective.isSome = true)
    (hhit : rs.any (fun a => jsIncludes geno a) = true) :
    interpretSnp snp (some geno) =
      { status := "Risk", weight := info.evidence * info.effect, color := "red",
        tooltip := "Risk-associated allele present." } := by
  obtain ⟨a, ha, hga⟩ := List.any_eq_true.mp hhit
  have hmem : (snp, info) ∈ SNP_INFO_LIST := lookup_mem hinfo
  have hane : (a.toList == []) = false := by
    have h1 := List.all_eq_true.mp registry_risk_alleles_nonempty _ hmem
    have h2 := List.all_eq_true.mp h1 a (by rw [hr]; simpa using ha)
    simpa using h2
  have hgne : geno ≠ "" := by
    intro he
    subst he
    unfold jsIncludes at hga
    have hnil : a.toList = [] := by
      have := of_decide_eq_true hga
      simpa [List.infix_nil] using this
    rw [hnil] at hane
    simp at hane
  simp only [interpretSnp, hinfo]
  rw [if_neg hgne, if_pos]
  rw [hr]
  simpa using hhit

/-- Witness for C2: rs429358 has risk allele C and protective allele T; the
heterozygous call "CT" contains both, and is classified Risk with
weight 5 × 5 = 25. -/
theorem interpretSnp_risk_precedence_witness :
    SNP_INFO "rs429358" =
      some { risk := some ["C"], protective := some ["T"],
             evidence := 5, effect := 5 } ∧
    interpretSnp "rs429358" (some "CT") =
      { status := "Risk", weight := 25, color := "red",
        tooltip := "Risk-associated allele present." } := by
  refine ⟨rfl, ?_⟩
  have h := interpretSnp_risk_precedence "rs429358"
    { risk := some ["C"], protective := some ["T"], evidence := 5, effect := 5 }
    "CT" ["C"] rfl rfl rfl (by decide)
  rw [h]
  norm_num

/-- `isHyperAbsorber` from `src/lib/phenotypes.ts`: the JS `x || ""` default
for a missing call is `Option.getD ""`. -/
def isHyperAbsorber (g : Genotypes) : Bool :=
  (jsIncludes ((g "rs429358").getD "") "C" ||
      jsIncludes ((g "rs7412").getD "") "C") &&
  !(jsIncludes ((g "rs11591147").getD "") "T")

/-- An entry of the monogenic-FH marker table. -/
structure MonoMarker where
  rsid : String
  gene : String
  variant : String
  pathogenicAllele : String
  note : String
  deriving DecidableEq, Repr

/-- Modelled from the spec: the data module defining `MONO_FH_MARKERS`
(`src/data/snpInfo.ts`) is not among the provided sources; per §4.3 the screen
is a short fixed list of highly-penetrant pathogenic markers, each carrying a
variant id, gene name, variant label, one pathogenic allele character and a
note. The marker ids rs5742904, rs137852912, rs28942111 and the labels
APOB R3527Q and PCSK9 D374Y/S127R appear in `App.tsx` and in the
justification strings of `phenotypes.ts`. -/
def MONO_FH_MARKERS : List MonoMarker := [
  { rsid := "rs5742904", gene := "APOB", variant := "R3527Q",
    pathogenicAllele := "T", note := "pathogenic FH marker" },
  { rsid := "rs137852912", gene := "PCSK9", variant := "D374Y",
    pathogenicAllele := "T", note := "pathogenic FH marker" },
  { rsid := "rs28942111", gene := "PCSK9", variant := "S127R",
    pathogenicAllele := "A", note := "pathogenic FH marker" }]

/-- `Phenotypes` from `types.ts` (the `justifications` string lists are
presentation text derived from the same flags and are not modelled). -/
structure Phenotypes where
  monoFH : Bool
  hyperAbsorber : Bool
  polyClass : String
  deriving DecidableEq, Repr

/-- The monogenic hit for one marker (`if (g && g.includes(...))` — a truthy
call string containing the pathogenic allele). -/
def monoHitEntry (g : Genotypes) (m : MonoMarker) : Option String :=
  match g m.rsid with
  | none => none
  | some call =>
    if call ≠ "" ∧ jsIncludes call m.pathogenicAllele = true then
      some (m.gene ++ " " ++ m.variant ++ " (" ++ m.rsid ++ ") — detected; " ++ m.note)
    else none

/-- `detectPhenotypes` from `src/lib/phenotypes.ts` (flags only). -/
def detectPhenotypes (g : Genotypes) : Phenotypes :=
  let ldl := categoryScores LDL_SNPS g
  let tg := categoryScores TG_SNPS g
  let monoHits := MONO_FH_MARKERS.filterMap (monoHitEntry g)
  let monoFH : Bool := decide (0 < monoHits.length)
  let ldlRisk := ldl.label = "Overall Risk"
  let tgRisk := tg.label = "Overall Risk"
  let polyClass : String :=
    if ldlRisk ∧ tgRisk then "FCHC"
    else if ldlRisk then "FHC"
    else if tgRisk then "FHT"
    else "None"
  { monoFH := monoFH, hyperAbsorber := isHyperAbsorber g, polyClass := polyClass }

/-- The polygenic classification rule as worded in the spec (§4.3): the
code strings FCHC / FHC / FHT name Combined / LDL-dominant / TG-dominant
(per the justification text of `phenotypes.ts`). -/
def polyClassSpec (ldlRisk tgRisk : Bool) : String :=
  if ldlRisk && tgRisk then "FCHC"
  else if ldlRisk then "FHC"
  else if tgRisk then "FHT"
  else "None"

/-- C3: For every genotype map the polygenic class is exactly one of the four
values None / FHC (LDL-dominant) / FHT (TG-dominant) / FCHC (Combined), and is
fully determined by whether the LDL-receptor category label and the
triglyceride category label are each "Overall Risk": both → FCHC, only LDL →
FHC, only TG → FHT, neither → None. -/
theorem detectPhenotypes_polyClass (g : Genotypes) :
    (detectPhenotypes g).polyClass ∈ ["None", "FHC", "FHT", "FCHC"] ∧
    (detectPhenotypes g).polyClass =
      polyClassSpec (decide ((categoryScores LDL_SNPS g).label = "Overall Risk"))
        (decide ((categoryScores TG_SNPS g).label = "Overall Risk")) := by
  by_cases hl : (categoryScores LDL_SNPS g).label = "Overall Risk" <;>
    by_cases ht : (categoryScores TG_SNPS g).label = "Overall Risk" <;>
      simp [detectPhenotypes, polyClassSpec, hl, ht]

lemma singleton_infix_iff_mem (c : Char) (l : List Char) :
    [c] <:+: l ↔ c ∈ l := by
  constructor
  · intro h
    exact h.subset (List.mem_singleton_self c)
  · intro h
    obtain ⟨s, t, rfl⟩ := List.append_of_mem h
    exact ⟨s, t, by simp⟩

/-- C4: For every genotype map the hyper-absorber flag is true iff (the call
for rs429358 OR the call for rs7412 contains the character C) AND NOT (the
call for rs11591147 contains the character T), missing calls counting as the
empty string; and the flag reported by detectPhenotypes is exactly
isHyperAbsorber applied to the raw genotype calls. -/
theorem isHyperAbsorber_iff (g : Genotypes) :
    ((detectPhenotypes g).hyperAbsorber = isHyperAbsorber g) ∧
    (isHyperAbsorber g = true ↔
      (('C' ∈ ((g "rs429358").getD "").toList ∨
          'C' ∈ ((g "rs7412").getD "").toList) ∧
        ¬ 'T' ∈ ((g "rs11591147").getD "").toList)) := by
  constructor
  · rfl
  · have hC : "C".toList = ['C'] := rfl
    have hT : "T".toList = ['T'] := rfl
    unfold isHyperAbsorber jsIncludes
    rw [hC, hT]
    simp [singleton_infix_iff_mem]

/-- `DietKey` from `types.ts` — the closed union of the five diet presets. -/
inductive DietKey where
  | Keto
  | Carnivore
  | LowCarb
  | HighCarb
  | Mediterranean
  deriving DecidableEq, Repr

/-- `DIET_KEYS` from `src/lib/diet.ts`. -/
def DIET_KEYS : List DietKey :=
  [.Keto, .Carnivore, .LowCarb, .HighCarb, .Mediterranean]

/-- `LabsMMol` from `types.ts`. -/
structure LabsMMol where
  LDL : ℚ
  HDL : ℚ
  TG : ℚ
  deriving DecidableEq, Repr

/-- `DIET_BASE_MMol` from `src/lib/diet.ts`: baseline mmol/L per diet. -/
def DIET_BASE_MMol : DietKey → LabsMMol
  | .Keto          => { LDL := 3.6, HDL := 1.4, TG := 0.9 }
  | .Carnivore     => { LDL := 3.8, HDL := 1.3, TG := 0.9 }
  | .LowCarb       => { LDL := 3.3, HDL := 1.3, TG := 1.1 }
  | .HighCarb      => { LDL := 3.0, HDL := 1.0, TG := 1.6 }
  | .Mediterranean => { LDL := 2.9, HDL := 1.2, TG := 1.1 }

/-- `predictLabsMMol` from `src/lib/diet.ts`. The sequential mutation of the
local `LDL`/`TG` variables across the four diet-specific blocks is modelled
as chained lets; `HDL` is never adjusted before its clamp. -/
def predictLabsMMol (diet : DietKey) (g : Genotypes) : LabsMMol :=
  let base := DIET_BASE_MMol diet
  let ldl := categoryScores LDL_SNPS g
  let tg := categoryScores TG_SNPS g
  let liver := categoryScores LIVER_SNPS g
  let ldlRisk := ldl.label = "Overall Risk"
  let tgRisk := tg.label = "Overall Risk"
  let liverRisk := liver.label = "Overall Risk"
  let hyperAbs := isHyperAbsorber g
  let s1 : ℚ × ℚ :=
    if diet = .Keto ∨ diet = .Carnivore then
      let t := if tgRisk then base.TG - 0.3 else base.TG
      let l := if ldlRisk then
          base.LDL + (if diet = .Carnivore then 0.4 else 0.3)
        else base.LDL
      let l2 := if hyperAbs then l + 0.1 else l
      let t2 := if liverRisk ∧ diet = .Keto then t - 0.05 else t
      (l2, t2)
    else (base.LDL, base.TG)
  let s2 : ℚ × ℚ :=
    if diet = .LowCarb then
      let t := if tgRisk then s1.2 - 0.2 else s1.2
      let l := if ldlRisk then s1.1 + 0.1 else s1.1
      let l2 := if hyperAbs then l + 0.05 else l
      (l2, t)
    else s1
  let s3 : ℚ × ℚ :=
    if diet = .Mediterranean then
      (if ldlRisk then s2.1 - 0.25 else s2.1,
        if tgRisk then s2.2 - 0.1 else s2.2)
    else s2
  let s4 : ℚ × ℚ :=
    if diet = .HighCarb then
      let l := if ldlRisk then s3.1 - 0.15 else s3.1
      let t := if tgRisk then s3.2 + 0.2 else s3.2
      let t2 := if liverRisk then t + 0.05 else t
      (l, t2)
    else s3
  { LDL := max 1.5 s4.1, HDL := max 0.6 base.HDL, TG := max 0.6 s4.2 }

/-- C5: For every known diet key and every genotype map, the prediction
satisfies LDL ≥ 1.5, HDL ≥ 0.6 and TG ≥ 0.6 mmol/L — no predicted value is
ever below its documented physiological floor. -/
theorem predictLabsMMol_floor (diet : DietKey) (g : Genotypes) :
    1.5 ≤ (predictLabsMMol diet g).LDL ∧
    0.6 ≤ (predictLabsMMol diet g).HDL ∧
    0.6 ≤ (predictLabsMMol diet g).TG :=
  ⟨le_max_left _ _, le_max_left _ _, le_max_left _ _⟩

/-- `dietFitScore` from `src/lib/diet.ts`. -/
def dietFitScore (labs : LabsMMol) : ℚ :=
  let ldlScore := max 0 (1 - max 0 (labs.LDL - 3.0) / 1.5)
  let tgScore := max 0 (1 - max 0 (labs.TG - 1.7) / 0.8)
  let hdlScore := min 1 (labs.HDL / 1.2)
  0.45 * ldlScore + 0.35 * tgScore + 0.20 * hdlScore

/-- C8: dietFitScore combines the LDL, TG and HDL partial scores with the
fixed weights 0.45, 0.35 and 0.20, which sum to 1, and for every lab triple
with nonnegative LDL, HDL and TG the resulting score lies in [0, 1]. -/
theorem dietFitScore_weights_bounds (labs : LabsMMol)
    (_hLDL : 0 ≤ labs.LDL) (hHDL : 0 ≤ labs.HDL) (_hTG : 0 ≤ labs.TG) :
    (0.45 + 0.35 + 0.20 : ℚ) = 1 ∧
    dietFitScore labs =
      0.45 * max 0 (1 - max 0 (labs.LDL - 3.0) / 1.5) +
        0.35 * max 0 (1 - max 0 (labs.TG - 1.7) / 0.8) +
        0.20 * min 1 (labs.HDL / 1.2) ∧
    0 ≤ dietFitScore labs ∧ dietFitScore labs ≤ 1 := by
  refine ⟨by norm_num, rfl, ?_, ?_⟩ <;>
  · have ha0 : (0 : ℚ) ≤ max 0 (1 - max 0 (labs.LDL - 3.0) / 1.5) := le_max_left _ _
    have hb0 : (0 : ℚ) ≤ max 0 (1 - max 0 (labs.TG - 1.7) / 0.8) := le_max_left _ _
    have hax : (0 : ℚ) ≤ max 0 (labs.LDL - 3.0) / 1.5 :=
      div_nonneg (le_max_left _ _) (by norm_num)
    have hbx : (0 : ℚ) ≤ max 0 (labs.TG - 1.7) / 0.8 :=
      div_nonneg (le_max_left _ _) (by norm_num)
    have ha1 : max 0 (1 - max 0 (labs.LDL - 3.0) / 1.5) ≤ 1 :=
      max_le (by norm_num) (by linarith)
    have hb1 : max 0 (1 - max 0 (labs.TG - 1.7) / 0.8) ≤ 1 :=
      max_le (by norm_num) (by linarith)
    have hc0 : (0 : ℚ) ≤ min 1 (labs.HDL / 1.2) :=
      le_min (by norm_num) (div_nonneg hHDL (by norm_num))
    have hc1 : min 1 (labs.HDL / 1.2) ≤ 1 := min_le_left _ _
    unfold dietFitScore
    linarith

/-- Witness for C8 at the keto baseline labs. -/
theorem dietFitScore_weights_bounds_witness :
    (0 : ℚ) ≤ (3.6 : ℚ) ∧
    0 ≤ dietFitScore { LDL := 3.6, HDL := 1.4, TG := 0.9 } ∧
    dietFitScore { LDL := 3.6, HDL := 1.4, TG := 0.9 } ≤ 1 := by
  have h := dietFitScore_weights_bounds { LDL := 3.6, HDL := 1.4, TG := 0.9 }
    (by norm_num) (by norm_num) (by norm_num)
  exact ⟨by norm_num, h.2.2.1, h.2.2.2⟩

lemma categoryScores_congr (snps : List String) (g1 g2 : Genotypes)
    (h : ∀ s ∈ snps, g1 s = g2 s) :
    categoryScores snps g1 = categoryScores snps g2 := by
  have hfold : ∀ (l : List String) (acc : ℚ × ℚ × List String),
      (∀ s ∈ l, g1 s = g2 s) →
        l.foldl (scoreStep g1) acc = l.foldl (scoreStep g2) acc := by
    intro l
    induction l with
    | nil => intro acc _; rfl
    | cons s t ih =>
      intro acc hl
      rw [List.foldl_cons, List.foldl_cons]
      have hs : g1 s = g2 s := hl s (List.mem_cons_self _ _)
      have hstep : scoreStep g1 acc s = scoreStep g2 acc s := by
        unfold scoreStep; rw [hs]
      rw [hstep]
      exact ih _ (fun x hx => hl x (List.mem_cons_of_mem _ hx))
  unfold categoryScores
  rw [hfold _ _ h]

lemma isHyperAbsorber_congr (g1 g2 : Genotypes)
    (h1 : g1 "rs429358" = g2 "rs429358")
    (h2 : g1 "rs7412" = g2 "rs7412")
    (h3 : g1 "rs11591147" = g2 "rs11591147") :
    isHyperAbsorber g1 = isHyperAbsorber g2 := by
  unfold isHyperAbsorber
  rw [h1, h2, h3]

lemma ldl_snps_not_insulin : ∀ s ∈ LDL_SNPS, s ∉ INSULIN_SNPS := by
  intro s hs
  fin_cases hs <;> decide

lemma tg_snps_not_insulin : ∀ s ∈ TG_SNPS, s ∉ INSULIN_SNPS := by
  intro s hs
  fin_cases hs <;> decide

lemma liver_snps_not_insulin : ∀ s ∈ LIVER_SNPS, s ∉ INSULIN_SNPS := by
  intro s hs
  fin_cases hs <;> decide

/-- C10 (implicit): the insulin-sensitivity / carbohydrate-tolerance category
never influences the numeric lab prediction — for every diet key, two
genotype maps agreeing on every variant outside the insulin category
(rs1801282, rs7903146, rs2943641, rs9939609, rs5400) yield identical
predictLabsMMol results; only the LDL-receptor, triglyceride and hepatic
category labels and the hyper-absorber trio enter the adjustment rules. -/
theorem predictLabsMMol_insulin_independent (diet : DietKey) (g1 g2 : Genotypes)
    (h : ∀ s, s ∉ INSULIN_SNPS → g1 s = g2 s) :
    predictLabsMMol diet g1 = predictLabsMMol diet g2 := by
  have hldl : categoryScores LDL_SNPS g1 = categoryScores LDL_SNPS g2 :=
    categoryScores_congr _ _ _ (fun s hs => h s (ldl_snps_not_insulin s hs))
  have htg : categoryScores TG_SNPS g1 = categoryScores TG_SNPS g2 :=
    categoryScores_congr _ _ _ (fun s hs => h s (tg_snps_not_insulin s hs))
  have hliver : categoryScores LIVER_SNPS g1 = categoryScores LIVER_SNPS g2 :=
    categoryScores_congr _ _ _ (fun s hs => h s (liver_snps_not_insulin s hs))
  have hhyper : isHyperAbsorber g1 = isHyperAbsorber g2 :=
    isHyperAbsorber_congr g1 g2 (h _ (by decide)) (h _ (by decide)) (h _ (by decide))
  unfold predictLabsMMol
  rw [hldl, htg, hliver, hhyper]

/-- Witness for C10: maps differing only at the insulin-category variant
rs9939609 give the same prediction for the keto diet. -/
theorem predictLabsMMol_insulin_independent_witness :
    predictLabsMMol DietKey.Keto (fun _ => none) =
      predictLabsMMol DietKey.Keto
        (fun s => if s = "rs9939609" then some "AA" else none) := by
  have h := predictLabsMMol_insulin_independent DietKey.Keto
    (fun _ => none) (fun s => if s = "rs9939609" then some "AA" else none)
    (by
      intro s hs
      by_cases he : s = "rs9939609"
      · subst he
        exact absurd (by decide) hs
      · simp [he])
  exact h

/-- The empty genotype map (no calls at all). -/
def emptyGenotypes : Genotypes := fun _ => none

/-- C7: For the empty genotype map, all four category labels are
"Overall Neutral" with zero risk and protective sums, the monogenic screen is
negative, the polygenic class is "None", the hyper-absorber flag is false,
and for every diet key the prediction equals that diet's static baseline
exactly. -/
theorem empty_genotypes_baseline :
    (categoryScores LDL_SNPS emptyGenotypes).label = "Overall Neutral" ∧
    (categoryScores LDL_SNPS emptyGenotypes).riskScore = 0 ∧
    (categoryScores LDL_SNPS emptyGenotypes).protectiveScore = 0 ∧
    (categoryScores TG_SNPS emptyGenotypes).label = "Overall Neutral" ∧
    (categoryScores TG_SNPS emptyGenotypes).riskScore = 0 ∧
    (categoryScores TG_SNPS emptyGenotypes).protectiveScore = 0 ∧
    (categoryScores INSULIN_SNPS emptyGenotypes).label = "Overall Neutral" ∧
    (categoryScores INSULIN_SNPS emptyGenotypes).riskScore = 0 ∧
    (categoryScores INSULIN_SNPS emptyGenotypes).protectiveScore = 0 ∧
    (categoryScores LIVER_SNPS emptyGenotypes).label = "Overall Neutral" ∧
    (categoryScores LIVER_SNPS emptyGenotypes).riskScore = 0 ∧
    (categoryScores LIVER_SNPS emptyGenotypes).protectiveScore = 0 ∧
    (detectPhenotypes emptyGenotypes).monoFH = false ∧
    (detectPhenotypes emptyGenotypes).polyClass = "None" ∧
    (detectPhenotypes emptyGenotypes).hyperAbsorber = false ∧
    ∀ diet : DietKey, predictLabsMMol diet emptyGenotypes = DIET_BASE_MMol diet := by
  refine ⟨rfl, rfl, rfl, rfl, rfl, rfl, rfl, rfl, rfl, rfl, rfl, rfl,
    rfl, rfl, rfl, ?_⟩
  intro diet
  have hldl : (categoryScores LDL_SNPS emptyGenotypes).label = "Overall Neutral" := rfl
  have htg : (categoryScores TG_SNPS emptyGenotypes).label = "Overall Neutral" := rfl
  have hliver : (categoryScores LIVER_SNPS emptyGenotypes).label = "Overall Neutral" := rfl
  have hhyper : isHyperAbsorber emptyGenotypes = false := rfl
  cases diet <;>
    · simp [predictLabsMMol, DIET_BASE_MMol, hldl, htg, hliver, hhyper]
      norm_num [max_def]

/-- A JS number that may be NaN: `none` models NaN (and `undefined` used in
arithmetic, which coerces to NaN). -/
structure LabsJS where
  LDL : Option ℚ
  HDL : Option ℚ
  TG : Option ℚ
  deriving DecidableEq, Repr

/-- NaN-propagating addition of a literal delta (`NaN + d = NaN`). -/
def jsAddNum (x : Option ℚ) (d : ℚ) : Option ℚ :=
  x.map (fun v => v + d)

/-- NaN-propagating subtraction of a literal delta. -/
def jsSubNum (x : Option ℚ) (d : ℚ) : Option ℚ :=
  x.map (fun v => v - d)

/-- JS `Math.max(floor, x)`: NaN-absorbing (`Math.max(c, NaN) = NaN`). -/
def jsMaxNum (floor : ℚ) (x : Option ℚ) : Option ℚ :=
  x.map (fun v => max floor v)

/-- The `DIET_BASE_MMol` table keyed by its raw JS string keys. -/
def DIET_BASE_LIST : List (String × LabsMMol) := [
  ("Keto",          { LDL := 3.6, HDL := 1.4, TG := 0.9 }),
  ("Carnivore",     { LDL := 3.8, HDL := 1.3, TG := 0.9 }),
  ("LowCarb",       { LDL := 3.3, HDL := 1.3, TG := 1.1 }),
  ("HighCarb",      { LDL := 3.0, HDL := 1.0, TG := 1.6 }),
  ("Mediterranean", { LDL := 2.9, HDL := 1.2, TG := 1.1 })]

/-- `predictLabsMMol` under raw JS runtime semantics, for calls that bypass
the static `DietKey` type with an arbitrary string key: the table lookup
`DIET_BASE_MMol[diet]` yields `undefined` for an unknown key, the spread of
`undefined` yields an empty object, the missing fields read as `undefined`,
and every subsequent arithmetic step and `Math.max` clamp propagates NaN
(`none`). The body of the source function contains no `throw`; any JS
exception would surface as `Except.error`, so the result is always
`Except.ok`. -/
def predictLabsMMolRun (diet : String) (g : Genotypes) : Except String LabsJS :=
  let base := DIET_BASE_LIST.lookup diet
  let ldl := categoryScores LDL_SNPS g
  let tg := categoryScores TG_SNPS g
  let liver := categoryScores LIVER_SNPS g
  let ldlRisk := ldl.label = "Overall Risk"
  let tgRisk := tg.label = "Overall Risk"
  let liverRisk := liver.label = "Overall Risk"
  let hyperAbs := isHyperAbsorber g
  let LDL0 : Option ℚ := base.map (fun b => b.LDL)
  let HDL0 : Option ℚ := base.map (fun b => b.HDL)
  let TG0 : Option ℚ := base.map (fun b => b.TG)
  let s1 : Option ℚ × Option ℚ :=
    if diet = "Keto" ∨ diet = "Carnivore" then
      let t := if tgRisk then jsSubNum TG0 0.3 else TG0
      let l := if ldlRisk then
          jsAddNum LDL0 (if diet = "Carnivore" then 0.4 else 0.3)
        else LDL0
      let l2 := if hyperAbs then jsAddNum l 0.1 else l
      let t2 := if liverRisk ∧ diet = "Keto" then jsSubNum t 0.05 else t
      (l2, t2)
    else (LDL0, TG0)
  let s2 : Option ℚ × Option ℚ :=
    if diet = "LowCarb" then
      let t := if tgRisk then jsSubNum s1.2 0.2 else s1.2
      let l := if ldlRisk then jsAddNum s1.1 0.1 else s1.1
      let l2 := if hyperAbs then jsAddNum l 0.05 else l
      (l2, t)
    else s1
  let s3 : Option ℚ × Option ℚ :=
    if diet = "Mediterranean" then
      (if ldlRisk then jsSubNum s2.1 0.25 else s2.1,
        if tgRisk then jsSubNum s2.2 0.1 else s2.2)
    else s2
  let s4 : Option ℚ × Option ℚ :=
    if diet = "HighCarb" then
      let l := if ldlRisk then jsSubNum s3.1 0.15 else s3.1
      let t := if tgRisk then jsAddNum s3.2 0.2 else s3.2
      let t2 := if liverRisk then jsAddNum t 0.05 else t
      (l, t2)
    else s3
  Except.ok
    { LDL := jsMaxNum 1.5 s4.1, HDL := jsMaxNum 0.6 HDL0, TG := jsMaxNum 0.6 s4.2 }

/-- Counterexample to C6: calling the prediction with the unknown diet key
"Paleo" does not raise any error — it returns normally, with every predicted
value NaN. The claimed fail-fast behaviour does not exist at runtime; only
the static `DietKey` type bars such calls. -/
theorem predictLabsRun_unknown_diet_counterexample :
    predictLabsMMolRun "Paleo" emptyGenotypes =
      Except.ok { LDL := none, HDL := none, TG := none } ∧
    ∀ e : String, predictLabsMMolRun "Paleo" emptyGenotypes ≠ Except.error e := by
  refine ⟨rfl, fun e h => ?_⟩
  rw [show predictLabsMMolRun "Paleo" emptyGenotypes =
    Except.ok { LDL := none, HDL := none, TG := none } from rfl] at h
  exact Except.noConfusion h

/-- C6 as amended: for every diet key outside the preset set, predictLabsMMol
under JS runtime semantics raises no error and returns no baseline — the
base-table lookup is undefined and all three predicted values are NaN. The
fail-fast contract exists only statically, via the closed `DietKey` union
type of the TypeScript signature. -/
theorem predictLabsRun_unknown_diet (diet : String) (g : Genotypes)
    (h : diet ∉ ["Keto", "Carnivore", "LowCarb", "HighCarb", "Mediterranean"]) :
    predictLabsMMolRun diet g =
      Except.ok { LDL := none, HDL := none, TG := none } := by
  have hK : diet ≠ "Keto" := fun he => h (by rw [he]; decide)
  have hC : diet ≠ "Carnivore" := fun he => h (by rw [he]; decide)
  have hL : diet ≠ "LowCarb" := fun he => h (by rw [he]; decide)
  have hH : diet ≠ "HighCarb" := fun he => h (by rw [he]; decide)
  have hM : diet ≠ "Mediterranean" := fun he => h (by rw [he]; decide)
  have hbase : DIET_BASE_LIST.lookup diet = none := by
    simp [DIET_BASE_LIST, List.lookup, beq_eq_false_iff_ne.mpr hK,
      beq_eq_false_iff_ne.mpr hC, beq_eq_false_iff_ne.mpr hL,
      beq_eq_false_iff_ne.mpr hH, beq_eq_false_iff_ne.mpr hM]
  simp [predictLabsMMolRun, hbase, hK, hC, hL, hH, hM, jsMaxNum]

/-- Witness for the amended C6 at the concrete unknown key "Paleo". -/
theorem predictLabsRun_unknown_diet_witness :
    "Paleo" ∉ ["Keto", "Carnivore", "LowCarb", "HighCarb", "Mediterranean"] ∧
    predictLabsMMolRun "Paleo"
        (fun s => if s = "rs429358" then some "CC" else none) =
      Except.ok { LDL := none, HDL := none, TG := none } :=
  ⟨by decide,
    predictLabsRun_unknown_diet "Paleo"
      (fun s => if s = "rs429358" then some "CC" else none) (by decide)⟩
